import Mathlib

/-!
Verification of the SDHCI host controller driver
(`platform/msm_shared/sdhci.c`) against its natural-language
specification.  The driver is shallowly embedded: pure computations
become Lean functions, hardware register traffic becomes explicit
read-streams (oracles) and write-traces, and machine integers are
naturals with explicit `% 2^w` truncation where the C code truncates.
-/

/-! ## Register-layout and protocol constants

The values below come from `sdhci.h`, which is not part of this source
tree; only `sdhci.c` is.  Each constant is therefore modelled from the
spec (bit positions follow the SDHCI 3.0 register layout the spec
describes).  None of the claims proved below depend on the particular
numeric values except where noted in the results.
-/

/-- Modelled from the spec: per-descriptor maximum span of an ADMA2
descriptor line (`SDHCI_ADMA_DESC_LINE_SZ` in the missing `sdhci.h`). -/
def SDHCI_ADMA_DESC_LINE_SZ : Nat := 65536

/-- Modelled from the spec: ADMA2 attribute bit "Valid". -/
def SDHCI_ADMA_TRANS_VALID : Nat := 1

/-- Modelled from the spec: ADMA2 attribute bit "End". -/
def SDHCI_ADMA_TRANS_END : Nat := 2

/-- Modelled from the spec: ADMA2 attribute "Data" (transfer-data action). -/
def SDHCI_ADMA_TRANS_DATA : Nat := 32

/-- Modelled from the spec: bound of the even-divisor scan
(`SDHCI_CLK_MAX_DIV` in the missing `sdhci.h`); the 10-bit divider
field supports programmed values up to 1023, i.e. division by 2046. -/
def SDHCI_CLK_MAX_DIV : Nat := 2046

/-- Modelled from the spec: low 8 bits of the 10-bit divider value. -/
def SDHCI_SDCLK_FREQ_MASK : Nat := 255

/-- Modelled from the spec: shift placing the divider low byte at bits 8-15. -/
def SDHCI_SDCLK_FREQ_SEL : Nat := 8

/-- Modelled from the spec: upper 2 bits (8-9) of the 10-bit divider value. -/
def SDHC_SDCLK_UP_BIT_MASK : Nat := 768

/-- Modelled from the spec: shift placing the divider upper bits at bits 6-7. -/
def SDHCI_SDCLK_UP_BIT_SEL : Nat := 6

/-- Modelled from the spec: internal-clock-enable bit of the clock control register. -/
def SDHCI_INT_CLK_EN : Nat := 1

/-- Modelled from the spec: clock-stable status bit of the clock control register. -/
def SDHCI_CLK_STABLE : Nat := 2

/-- Modelled from the spec: SD-clock-enable bit of the clock control register. -/
def SDHCI_CLK_EN : Nat := 4

/-- Modelled from the spec: caller-side bus width tag for 1-bit. -/
def DATA_BUS_WIDTH_1BIT : Nat := 0

/-- Modelled from the spec: caller-side bus width tag for 4-bit. -/
def DATA_BUS_WIDTH_4BIT : Nat := 1

/-- Modelled from the spec: caller-side bus width tag for 8-bit. -/
def DATA_BUS_WIDTH_8BIT : Nat := 2

/-- Modelled from the spec: host-control-register pattern for 1-bit width. -/
def SDHCI_BUS_WITDH_1BIT : Nat := 0

/-- Modelled from the spec: host-control-register pattern for 4-bit width (bit 1). -/
def SDHCI_BUS_WITDH_4BIT : Nat := 2

/-- Modelled from the spec: host-control-register pattern for 8-bit width (bit 5). -/
def SDHCI_BUS_WITDH_8BIT : Nat := 32

/-- Modelled from the spec: Command-Complete bit of the normal interrupt status register. -/
def SDHCI_INT_STS_CMD_COMPLETE : Nat := 1

/-- Modelled from the spec: Transfer-Complete bit of the normal interrupt status register. -/
def SDHCI_INT_STS_TRANS_COMPLETE : Nat := 2

/-- Modelled from the spec: error-interrupt summary bit (bit 15) of the
normal interrupt status register. -/
def SDHCI_ERR_INT_STAT_MASK : Nat := 32768

/-- Modelled from the spec: bounded retry count of the command-complete poll. -/
def SDHCI_MAX_CMD_RETRY : Nat := 10000

/-- Modelled from the spec: bounded retry count of the transfer-complete poll. -/
def SDHCI_MAX_TRANS_RETRY : Nat := 10000

/-- Modelled from the spec: command/data line activity mask of the present state register. -/
def SDHCI_STATE_CMD_DAT_MASK : Nat := 3

/-- Modelled from the spec: command-timeout bit of the error interrupt status register. -/
def SDHCI_CMD_TIMEOUT_MASK : Nat := 1

/-- Modelled from the spec: command-CRC bit of the error interrupt status register. -/
def SDHCI_CMD_CRC_MASK : Nat := 2

/-- Modelled from the spec: command-end-bit bit of the error interrupt status register. -/
def SDHCI_CMD_END_BIT_MASK : Nat := 4

/-- Modelled from the spec: command-index bit of the error interrupt status register. -/
def SDHCI_CMD_IDX_MASK : Nat := 8

/-- Modelled from the spec: data-timeout bit of the error interrupt status register. -/
def SDHCI_DAT_TIMEOUT_MASK : Nat := 16

/-- Modelled from the spec: data-CRC bit of the error interrupt status register. -/
def SDHCI_DAT_CRC_MASK : Nat := 32

/-- Modelled from the spec: data-end-bit bit of the error interrupt status register. -/
def SDHCI_DAT_END_BIT_MASK : Nat := 64

/-- Modelled from the spec: current-limit bit of the error interrupt status register. -/
def SDHCI_CUR_LIM_MASK : Nat := 128

/-- Modelled from the spec: auto-CMD12 bit of the error interrupt status register. -/
def SDHCI_AUTO_CMD12_MASK : Nat := 256

/-- Modelled from the spec: ADMA-error bit of the error interrupt status register. -/
def SDHCI_ADMA_MASK : Nat := 512

/-- Modelled from the spec: byte shift used in 136-bit response reassembly. -/
def SDHCI_RESP_LSHIFT : Nat := 8

/-- Modelled from the spec: top-byte shift used in 136-bit response reassembly. -/
def SDHCI_RESP_RSHIFT : Nat := 24

/-- Modelled from the spec: MMC SWITCH command index (CMD6). -/
def SDHCI_SWITCH_CMD : Nat := 6

/-- Modelled from the spec: caller-side response-type tag "no response". -/
def SDHCI_CMD_RESP_NONE : Nat := 0

/-- Modelled from the spec: caller-side response-type tag R1. -/
def SDHCI_CMD_RESP_R1 : Nat := 1

/-- Modelled from the spec: caller-side response-type tag R1B. -/
def SDHCI_CMD_RESP_R1B : Nat := 2

/-- Modelled from the spec: caller-side response-type tag R2 (136-bit). -/
def SDHCI_CMD_RESP_R2 : Nat := 3

/-- Modelled from the spec: caller-side response-type tag R3. -/
def SDHCI_CMD_RESP_R3 : Nat := 4

/-- Modelled from the spec: caller-side response-type tag R6. -/
def SDHCI_CMD_RESP_R6 : Nat := 5

/-- Modelled from the spec: caller-side response-type tag R7. -/
def SDHCI_CMD_RESP_R7 : Nat := 6

/-- Modelled from the spec: controller encoding for a 136-bit response. -/
def SDHCI_CMD_RESP_136 : Nat := 1

/-- Modelled from the spec: controller encoding for a 48-bit response. -/
def SDHCI_CMD_RESP_48 : Nat := 2

/-- Modelled from the spec: controller encoding for a 48-bit response with busy. -/
def SDHCI_CMD_RESP_48_BUSY : Nat := 3

/-! ## DMA descriptor builder (`sdhci_prep_desc_table`, sdhci.c:478-547) -/

/-- One ADMA2 descriptor line: buffer address, transfer length,
transfer attributes.  Addresses are modelled as naturals. -/
structure desc_entry where
  addr : Nat
  len : Nat
  tran_att : Nat
deriving Repr, DecidableEq

/-- The `for (i = 0; i < sg_len - 1; i++)` loop of
`sdhci_prep_desc_table`: emits `n` full-span Valid|Data entries while
advancing `data` and decrementing `len`, returning the emitted entries
together with the final `data` and `len` values. -/
def descLoop (data len : Nat) : Nat → List desc_entry × Nat × Nat
  | 0 => ([], data, len)
  | n + 1 =>
    let r := descLoop (data + SDHCI_ADMA_DESC_LINE_SZ) (len - SDHCI_ADMA_DESC_LINE_SZ) n
    (⟨data, SDHCI_ADMA_DESC_LINE_SZ,
      SDHCI_ADMA_TRANS_VALID ||| SDHCI_ADMA_TRANS_DATA⟩ :: r.1, r.2)

/-- Embedding of `sdhci_prep_desc_table` (sdhci.c:478-547): builds the
ADMA2 descriptor chain for a buffer of `len` bytes at address `data`.
Allocation failure aborts in the C code (ASSERT) and has no
corresponding value here; cache maintenance is a no-op on the model. -/
def sdhci_prep_desc_table (data len : Nat) : List desc_entry :=
  if len ≤ SDHCI_ADMA_DESC_LINE_SZ then
    [⟨data, len, SDHCI_ADMA_TRANS_VALID ||| SDHCI_ADMA_TRANS_DATA |||
                 SDHCI_ADMA_TRANS_END⟩]
  else
    let sg_len := len / SDHCI_ADMA_DESC_LINE_SZ
    let remain := len - sg_len * SDHCI_ADMA_DESC_LINE_SZ
    let sg_len := if remain ≠ 0 then sg_len + 1 else sg_len
    let r := descLoop data len (sg_len - 1)
    r.1 ++ [⟨r.2.1, r.2.2, SDHCI_ADMA_TRANS_VALID ||| SDHCI_ADMA_TRANS_DATA |||
                           SDHCI_ADMA_TRANS_END⟩]

/-! ## Clock manager (`sdhci_clk_supply`, sdhci.c:102-150) -/

/-- Host capability record (the fields used by the claims). -/
structure sdhci_caps where
  base_clk_rate : Nat
deriving Repr, DecidableEq

/-- Host state visible to the clock manager. -/
structure sdhci_host where
  caps : sdhci_caps
  cur_clk_rate : Nat
deriving Repr, DecidableEq

/-- Result of `sdhci_clk_supply`: C return value, updated host record,
and the trace of 16-bit values written to `SDHCI_CLK_CTRL_REG`. -/
structure ClkSupplyResult where
  ret : Nat
  host : sdhci_host
  clkWrites : List Nat
deriving Repr, DecidableEq

/-- The divisor scan loop of `sdhci_clk_supply` (sdhci.c:117-121):
`for (div = 2; div < SDHCI_CLK_MAX_DIV; div += 2) { freq = base/div;
if (freq <= clk) break; }`.  Returns the final `div` and `freq`. -/
def clkDivScan (base clk div freq : Nat) : Nat × Nat :=
  if div < SDHCI_CLK_MAX_DIV then
    let f := base / div
    if f ≤ clk then (div, f)
    else clkDivScan base clk (div + 2) f
  else (div, freq)
termination_by SDHCI_CLK_MAX_DIV - div

/-- Embedding of `sdhci_clk_supply` (sdhci.c:102-150).  The unbounded
clock-stable poll is modelled with a responsive controller: the
read-back of the clock control register returns the last written value
with `SDHCI_CLK_STABLE` set (the spec notes the wait is unbounded and
hangs on a non-responding controller; no claim concerns that hang). -/
def sdhci_clk_supply (host : sdhci_host) (clk : Nat) : ClkSupplyResult :=
  if host.caps.base_clk_rate < clk then
    { ret := 1, host := host, clkWrites := [] }
  else
    let df : Nat × Nat :=
      if clk = host.caps.base_clk_rate then (0, 0)
      else
        let s := clkDivScan host.caps.base_clk_rate clk 2 0
        (s.1 >>> 1, s.2)
    let clk_val :=
      ((df.1 &&& SDHCI_SDCLK_FREQ_MASK) <<< SDHCI_SDCLK_FREQ_SEL) |||
      (((df.1 &&& SDHC_SDCLK_UP_BIT_MASK) >>> SDHCI_SDCLK_FREQ_SEL) <<<
        SDHCI_SDCLK_UP_BIT_SEL)
    let clk_val := clk_val ||| SDHCI_INT_CLK_EN
    let readBack := clk_val ||| SDHCI_CLK_STABLE
    let clk_val2 := readBack ||| SDHCI_CLK_EN
    { ret := 0,
      host := { host with cur_clk_rate := df.2 },
      clkWrites := [clk_val, clk_val2] }

/-! ## Bus width (`sdhci_set_bus_width`, sdhci.c:304-328) -/

/-- Embedding of `sdhci_set_bus_width` (sdhci.c:304-328) over the
current 8-bit host-control register value `reg`.  Returns the C return
value and the value written back to the register (`none` when the
width is unrecognized and no write occurs). -/
def sdhci_set_bus_width (reg width : Nat) : Nat × Option Nat :=
  if width = DATA_BUS_WIDTH_8BIT then (0, some (reg ||| SDHCI_BUS_WITDH_8BIT))
  else if width = DATA_BUS_WIDTH_4BIT then (0, some (reg ||| SDHCI_BUS_WITDH_4BIT))
  else if width = DATA_BUS_WIDTH_1BIT then (0, some (reg ||| SDHCI_BUS_WITDH_1BIT))
  else (1, none)

/-! ## Command engine (`sdhci_cmd_complete` / `sdhci_send_command`,
sdhci.c:386-470 and 613-716) -/

/-- The nine-plus-one error kinds of `sdhci_cmd_err_status`; each kind
is the diagnostic category the C code prints before returning 1. -/
inductive ErrKind where
  | cmdTimeout
  | cmdCrc
  | cmdEndBit
  | cmdIdx
  | datTimeout
  | datCrc
  | datEndBit
  | curLim
  | autoCmd12
  | adma
deriving Repr, DecidableEq

/-- Embedding of `sdhci_cmd_err_status` (sdhci.c:336-375) on the value
`err` of the error interrupt status register: the first matching bit
in the fixed precedence order wins (`some kind` stands for the C
return value 1 with that diagnostic; `none` for return value 0). -/
def sdhci_cmd_err_status (err : Nat) : Option ErrKind :=
  if err &&& SDHCI_CMD_TIMEOUT_MASK ≠ 0 then some .cmdTimeout
  else if err &&& SDHCI_CMD_CRC_MASK ≠ 0 then some .cmdCrc
  else if err &&& SDHCI_CMD_END_BIT_MASK ≠ 0 then some .cmdEndBit
  else if err &&& SDHCI_CMD_IDX_MASK ≠ 0 then some .cmdIdx
  else if err &&& SDHCI_DAT_TIMEOUT_MASK ≠ 0 then some .datTimeout
  else if err &&& SDHCI_DAT_CRC_MASK ≠ 0 then some .datCrc
  else if err &&& SDHCI_DAT_END_BIT_MASK ≠ 0 then some .datEndBit
  else if err &&& SDHCI_CUR_LIM_MASK ≠ 0 then some .curLim
  else if err &&& SDHCI_AUTO_CMD12_MASK ≠ 0 then some .autoCmd12
  else if err &&& SDHCI_ADMA_MASK ≠ 0 then some .adma
  else none

/-- Hardware oracle for one command: `nrmlReads j` is the value the
`j`-th read of the normal interrupt status register returns, `errSts`
the error interrupt status register, `respReg i` the raw 32-bit
response register `RESP0+4*i`, and `presentReads j` the `j`-th read of
the present state register. -/
structure HwState where
  nrmlReads : Nat → Nat
  errSts : Nat
  respReg : Nat → Nat
  presentReads : Nat → Nat

/-- A bounded polling loop of the driver: reads the stream `reads`
starting at index `k`; breaks successfully as soon as `test` holds of
a read value, gives up after `fuel` consecutive failing reads.
Returns the success flag and the next unconsumed read index. -/
def pollSts (reads : Nat → Nat) (test : Nat → Bool) : Nat → Nat → Bool × Nat
  | k, 0 => (false, k)
  | k, fuel + 1 =>
    if test (reads k) then (true, k + 1)
    else if fuel = 0 then (false, k + 1)
    else pollSts reads test (k + 1) fuel

/-- Embedding of the R2 response reassembly loop of
`sdhci_cmd_complete` (sdhci.c:419-428): each response word is the raw
32-bit register shifted left 8 bits (truncated at 32 bits, as the C
`uint32_t` shift does), OR'd for words after the first with the top 8
bits of the previous raw register. -/
def sdhci_resp_r2 (raw : Nat → Nat) : List Nat :=
  (List.range 4).map fun i =>
    let v := (((raw i % 2 ^ 32) <<< SDHCI_RESP_LSHIFT) % 2 ^ 32)
    if i = 0 then v
    else v ||| ((raw (i - 1) % 2 ^ 32) >>> SDHCI_RESP_RSHIFT)

/-- Command record supplied by the caller (the fields the engine reads). -/
structure mmc_command where
  cmd_index : Nat
  argument : Nat
  cmd_type : Nat
  resp_type : Nat
  data_present : Bool
  trans_mode : Nat
deriving Repr, DecidableEq

/-- Observable outcome of `sdhci_cmd_complete`: the C return value,
the response words stored into `cmd->resp`, the values written to the
normal interrupt status register (the clear-by-write-back writes), whether
the soft reset of the command/data lines was written, and the error
kind the classifier reported (if any). -/
structure CmdCompleteOut where
  ret : Nat
  resp : List Nat
  nrmlWrites : List Nat
  resetWrite : Bool
  errKind : Option ErrKind
deriving Repr, DecidableEq

/-- The `err:` tail of `sdhci_cmd_complete` (sdhci.c:455-469): read
the normal interrupt status (read index `k`); if its error summary bit
is set and the classifier reports an error, return 1 with no further
action; otherwise write the command/data soft reset when the command
bears data, and return 0. -/
def errBlock (hw : HwState) (cmd : mmc_command) (resp : List Nat)
    (writes : List Nat) (k : Nat) : CmdCompleteOut :=
  let int_status := hw.nrmlReads k
  if int_status &&& SDHCI_ERR_INT_STAT_MASK ≠ 0 then
    match sdhci_cmd_err_status hw.errSts with
    | some kind =>
      { ret := 1, resp := resp, nrmlWrites := writes, resetWrite := false,
        errKind := some kind }
    | none =>
      { ret := 0, resp := resp, nrmlWrites := writes,
        resetWrite := cmd.data_present, errKind := none }
  else
    { ret := 0, resp := resp, nrmlWrites := writes,
      resetWrite := cmd.data_present, errKind := none }

/-- Embedding of `sdhci_cmd_complete` (sdhci.c:386-470): poll for
Command-Complete (bounded by `SDHCI_MAX_CMD_RETRY`), on success clear
the bit by write-back and decode the response; for data-bearing or
SWITCH commands poll for Transfer-Complete (bounded by
`SDHCI_MAX_TRANS_RETRY`) and clear it on success; on either poll's
exhaustion jump straight to the `err:` tail. -/
def sdhci_cmd_complete (hw : HwState) (cmd : mmc_command) : CmdCompleteOut :=
  let p := pollSts hw.nrmlReads
    (fun v => v &&& SDHCI_INT_STS_CMD_COMPLETE = SDHCI_INT_STS_CMD_COMPLETE)
    0 SDHCI_MAX_CMD_RETRY
  if p.1 then
    let w1 := [SDHCI_INT_STS_CMD_COMPLETE]
    let resp :=
      if cmd.resp_type = SDHCI_CMD_RESP_R2 then sdhci_resp_r2 hw.respReg
      else [hw.respReg 0 % 2 ^ 32]
    if cmd.data_present || cmd.cmd_index = SDHCI_SWITCH_CMD then
      let q := pollSts hw.nrmlReads
        (fun v => v &&& SDHCI_INT_STS_TRANS_COMPLETE ≠ 0)
        p.2 SDHCI_MAX_TRANS_RETRY
      if q.1 then
        errBlock hw cmd resp (w1 ++ [SDHCI_INT_STS_TRANS_COMPLETE]) q.2
      else
        errBlock hw cmd resp w1 q.2
    else
      errBlock hw cmd resp w1 p.2
  else
    errBlock hw cmd [] [] p.2

/-- The response-type mapping switch of `sdhci_send_command`
(sdhci.c:651-684): maps the caller's response-type tag to the
controller's response-length encoding; `none` is the `default:` branch
returning 1. -/
def respTypeMap (t : Nat) : Option Nat :=
  if t = SDHCI_CMD_RESP_R1 ∨ t = SDHCI_CMD_RESP_R3 ∨
     t = SDHCI_CMD_RESP_R6 ∨ t = SDHCI_CMD_RESP_R7 then
    some SDHCI_CMD_RESP_48
  else if t = SDHCI_CMD_RESP_R2 then some SDHCI_CMD_RESP_136
  else if t = SDHCI_CMD_RESP_R1B then some SDHCI_CMD_RESP_48_BUSY
  else if t = SDHCI_CMD_RESP_NONE then some SDHCI_CMD_RESP_NONE
  else none

/-- Observable outcome of `sdhci_send_command`: the C return value,
whether a descriptor table was built (`sg_list != NULL`), and whether
`free(sg_list)` ran. -/
structure SendCommandOut where
  ret : Nat
  sgBuilt : Bool
  sgFreed : Bool
deriving Repr, DecidableEq

/-- Embedding of `sdhci_send_command` (sdhci.c:613-716): wait for the
command/data lines to go idle (bounded, 10 retries), map the response
type (`default:` fails), build the descriptor table when data is
present, run the command-complete sequence, and free the table only
where the C code does. -/
def sdhci_send_command (hw : HwState) (cmd : mmc_command) : SendCommandOut :=
  let lp := pollSts hw.presentReads
    (fun v => v &&& SDHCI_STATE_CMD_DAT_MASK = 0) 0 10
  if ¬lp.1 then { ret := 1, sgBuilt := false, sgFreed := false }
  else
    match respTypeMap cmd.resp_type with
    | none => { ret := 1, sgBuilt := false, sgFreed := false }
    | some _ =>
      let built := cmd.data_present
      let cc := sdhci_cmd_complete hw cmd
      if cc.ret ≠ 0 then { ret := 1, sgBuilt := built, sgFreed := false }
      else { ret := 0, sgBuilt := built, sgFreed := built }

/-! ## Helper lemmas -/

/-- Closed form of the descriptor-builder loop. -/
lemma descLoop_eq (n : Nat) : ∀ (data len : Nat),
    descLoop data len n =
      ((List.range n).map fun i =>
        desc_entry.mk (data + i * SDHCI_ADMA_DESC_LINE_SZ) SDHCI_ADMA_DESC_LINE_SZ
          (SDHCI_ADMA_TRANS_VALID ||| SDHCI_ADMA_TRANS_DATA),
       data + n * SDHCI_ADMA_DESC_LINE_SZ, len - n * SDHCI_ADMA_DESC_LINE_SZ) := by
  induction n with
  | zero => intro data len; simp [descLoop]
  | succ n ih =>
    intro data len
    simp only [descLoop, ih]
    rw [List.range_succ_eq_map, List.map_cons, List.map_map]
    refine congrArg₂ Prod.mk (congrArg₂ List.cons ?_ ?_) (congrArg₂ Prod.mk ?_ ?_)
    · simp
    · apply List.map_congr_left
      intro i _
      simp only [Function.comp_apply]
      congr 1
      simp only [SDHCI_ADMA_DESC_LINE_SZ, Nat.succ_eq_add_one]
      omega
    · simp only [SDHCI_ADMA_DESC_LINE_SZ]
      omega
    · simp only [SDHCI_ADMA_DESC_LINE_SZ]
      omega

/-- Sum of a constant-valued map over a range. -/
lemma sum_map_const_range (m c : Nat) : (((List.range m).map fun _ => c).sum) = m * c := by
  induction m with
  | zero => simp
  | succ m ih => rw [List.range_succ]; simp [ih]; ring

/-- Multi-entry shape of the descriptor table when the length exceeds
one span. -/
lemma prep_desc_gt (data len : Nat) (h : SDHCI_ADMA_DESC_LINE_SZ < len) :
    ∃ m, 1 ≤ m ∧ m * SDHCI_ADMA_DESC_LINE_SZ < len ∧
      len ≤ (m + 1) * SDHCI_ADMA_DESC_LINE_SZ ∧
      m + 1 = (len + SDHCI_ADMA_DESC_LINE_SZ - 1) / SDHCI_ADMA_DESC_LINE_SZ ∧
      sdhci_prep_desc_table data len =
        ((List.range m).map fun i =>
          desc_entry.mk (data + i * SDHCI_ADMA_DESC_LINE_SZ) SDHCI_ADMA_DESC_LINE_SZ
            (SDHCI_ADMA_TRANS_VALID ||| SDHCI_ADMA_TRANS_DATA)) ++
        [desc_entry.mk (data + m * SDHCI_ADMA_DESC_LINE_SZ)
          (len - m * SDHCI_ADMA_DESC_LINE_SZ)
          (SDHCI_ADMA_TRANS_VALID ||| SDHCI_ADMA_TRANS_DATA ||| SDHCI_ADMA_TRANS_END)] := by
  have hnle : ¬ len ≤ SDHCI_ADMA_DESC_LINE_SZ := by omega
  by_cases hr : len - len / SDHCI_ADMA_DESC_LINE_SZ * SDHCI_ADMA_DESC_LINE_SZ = 0
  · refine ⟨len / SDHCI_ADMA_DESC_LINE_SZ - 1, ?_, ?_, ?_, ?_, ?_⟩
    · simp only [SDHCI_ADMA_DESC_LINE_SZ] at *; omega
    · simp only [SDHCI_ADMA_DESC_LINE_SZ] at *; omega
    · simp only [SDHCI_ADMA_DESC_LINE_SZ] at *; omega
    · simp only [SDHCI_ADMA_DESC_LINE_SZ] at *; omega
    · simp only [sdhci_prep_desc_table]
      rw [if_neg hnle, if_neg (fun hc => hc hr), descLoop_eq]
  · refine ⟨len / SDHCI_ADMA_DESC_LINE_SZ, ?_, ?_, ?_, ?_, ?_⟩
    · simp only [SDHCI_ADMA_DESC_LINE_SZ] at *; omega
    · simp only [SDHCI_ADMA_DESC_LINE_SZ] at *; omega
    · simp only [SDHCI_ADMA_DESC_LINE_SZ] at *; omega
    · simp only [SDHCI_ADMA_DESC_LINE_SZ] at *; omega
    · simp only [sdhci_prep_desc_table]
      rw [if_neg hnle, if_pos hr, descLoop_eq]
      simp

/-! ## Claims -/

/-- C1: for every buffer pointer and length, the descriptor chain's
entry lengths sum to the requested length, exactly one entry (the
last) is End-marked, every entry's length is at most the
per-descriptor span, and when the length exceeds one span there are
exactly ceil(len / span) entries, the first n-1 full-span Valid|Data
and the last the remainder with Valid|Data|End. -/
theorem claim_C1_desc_chain (data len : Nat) :
    ((sdhci_prep_desc_table data len).map desc_entry.len).sum = len ∧
    (∃ front lastE, sdhci_prep_desc_table data len = front ++ [lastE] ∧
      lastE.tran_att = SDHCI_ADMA_TRANS_VALID ||| SDHCI_ADMA_TRANS_DATA |||
        SDHCI_ADMA_TRANS_END ∧
      ∀ e ∈ front, e.tran_att = SDHCI_ADMA_TRANS_VALID ||| SDHCI_ADMA_TRANS_DATA) ∧
    ((sdhci_prep_desc_table data len).filter
      fun e => e.tran_att &&& SDHCI_ADMA_TRANS_END != 0).length = 1 ∧
    (∀ e ∈ sdhci_prep_desc_table data len, e.len ≤ SDHCI_ADMA_DESC_LINE_SZ) ∧
    (SDHCI_ADMA_DESC_LINE_SZ < len →
      (sdhci_prep_desc_table data len).length =
        (len + SDHCI_ADMA_DESC_LINE_SZ - 1) / SDHCI_ADMA_DESC_LINE_SZ ∧
      (∀ e ∈ (sdhci_prep_desc_table data len).dropLast,
        e.len = SDHCI_ADMA_DESC_LINE_SZ) ∧
      ∃ lastE, (sdhci_prep_desc_table data len).getLast? = some lastE ∧
        lastE.len = len -
          ((sdhci_prep_desc_table data len).length - 1) * SDHCI_ADMA_DESC_LINE_SZ) := by
  by_cases h : len ≤ SDHCI_ADMA_DESC_LINE_SZ
  · have he : sdhci_prep_desc_table data len =
        [⟨data, len, SDHCI_ADMA_TRANS_VALID ||| SDHCI_ADMA_TRANS_DATA |||
          SDHCI_ADMA_TRANS_END⟩] := by
      simp [sdhci_prep_desc_table, h]
    rw [he]
    refine ⟨by simp, ?_, ?_, ?_, ?_⟩
    · exact ⟨[], ⟨data, len, SDHCI_ADMA_TRANS_VALID ||| SDHCI_ADMA_TRANS_DATA |||
        SDHCI_ADMA_TRANS_END⟩, by simp, rfl, by simp⟩
    · simp [List.filter_singleton, SDHCI_ADMA_TRANS_VALID, SDHCI_ADMA_TRANS_DATA,
        SDHCI_ADMA_TRANS_END]
    · simpa using h
    · intro hlt
      exact absurd hlt (by omega)
  · obtain ⟨m, hm1, hmlt, hmle, hceil, he⟩ := prep_desc_gt data len (by omega)
    rw [he]
    refine ⟨?_, ?_, ?_, ?_, fun _ => ⟨?_, ?_, ?_⟩⟩
    · simp only [List.map_append, List.sum_append, List.map_map]
      have hs : (((List.range m).map
          ((fun e => e.len) ∘ fun i =>
            desc_entry.mk (data + i * SDHCI_ADMA_DESC_LINE_SZ) SDHCI_ADMA_DESC_LINE_SZ
              (SDHCI_ADMA_TRANS_VALID ||| SDHCI_ADMA_TRANS_DATA))).sum)
          = m * SDHCI_ADMA_DESC_LINE_SZ := sum_map_const_range m _
      rw [hs]
      simp only [List.map_cons, List.map_nil, List.sum_cons, List.sum_nil]
      omega
    · refine ⟨_, _, rfl, rfl, ?_⟩
      intro e hmem
      simp only [List.mem_map, List.mem_range] at hmem
      obtain ⟨i, _, rfl⟩ := hmem
      rfl
    · rw [List.filter_append]
      have h1 : ((List.range m).map fun i =>
          desc_entry.mk (data + i * SDHCI_ADMA_DESC_LINE_SZ) SDHCI_ADMA_DESC_LINE_SZ
            (SDHCI_ADMA_TRANS_VALID ||| SDHCI_ADMA_TRANS_DATA)).filter
          (fun e => e.tran_att &&& SDHCI_ADMA_TRANS_END != 0) = [] := by
        apply List.filter_eq_nil_iff.mpr
        intro e hmem
        simp only [List.mem_map, List.mem_range] at hmem
        obtain ⟨i, _, rfl⟩ := hmem
        show ¬((SDHCI_ADMA_TRANS_VALID ||| SDHCI_ADMA_TRANS_DATA) &&&
          SDHCI_ADMA_TRANS_END != 0) = true
        decide
      rw [h1]
      simp [List.filter_singleton, SDHCI_ADMA_TRANS_VALID, SDHCI_ADMA_TRANS_DATA,
        SDHCI_ADMA_TRANS_END]
    · intro e hmem
      simp only [List.mem_append, List.mem_map, List.mem_range, List.mem_singleton] at hmem
      rcases hmem with ⟨i, _, rfl⟩ | rfl
      · exact le_refl _
      · show len - m * SDHCI_ADMA_DESC_LINE_SZ ≤ SDHCI_ADMA_DESC_LINE_SZ
        simp only [SDHCI_ADMA_DESC_LINE_SZ] at *
        omega
    · simp only [List.length_append, List.length_map, List.length_range,
        List.length_singleton]
      exact hceil
    · rw [List.dropLast_concat]
      intro e hmem
      simp only [List.mem_map, List.mem_range] at hmem
      obtain ⟨i, _, rfl⟩ := hmem
      rfl
    · refine ⟨_, List.getLast?_concat _, ?_⟩
      simp only [List.length_append, List.length_map, List.length_range,
        List.length_singleton, Nat.add_sub_cancel]

/-- C1 witness: the sum property instantiated at a concrete buffer and length. -/
theorem claim_C1_witness :
    ((sdhci_prep_desc_table 4096 200000).map desc_entry.len).sum = 200000 :=
  (claim_C1_desc_chain 4096 200000).1

/-- C5: a target frequency above the base clock rate fails immediately,
with no clock-control register write and the host record unchanged. -/
theorem claim_C5_unsupported_freq (host : sdhci_host) (clk : Nat)
    (h : host.caps.base_clk_rate < clk) :
    (sdhci_clk_supply host clk).ret = 1 ∧
    (sdhci_clk_supply host clk).clkWrites = [] ∧
    (sdhci_clk_supply host clk).host = host := by
  simp [sdhci_clk_supply, h]

/-- C5 witness: requesting 300 MHz on a 200 MHz-base host. -/
theorem claim_C5_witness :
    (200000000 : Nat) < 300000000 ∧
    (sdhci_clk_supply ⟨⟨200000000⟩, 77⟩ 300000000).ret = 1 ∧
    (sdhci_clk_supply ⟨⟨200000000⟩, 77⟩ 300000000).clkWrites = [] ∧
    (sdhci_clk_supply ⟨⟨200000000⟩, 77⟩ 300000000).host = ⟨⟨200000000⟩, 77⟩ :=
  ⟨by decide, claim_C5_unsupported_freq ⟨⟨200000000⟩, 77⟩ 300000000 (by decide)⟩

/-- C8: requesting exactly the base clock rate takes the bypass path:
the function succeeds and the divider field programmed into the clock
control register is 0, the controller's bypass encoding (division
factor 1) — but the recorded current clock rate becomes 0, not the
base clock rate, because the `freq` variable is never assigned on the
bypass path.  This contradicts the claim's (and the spec's) "records
the newly achieved rate", and breaks `sdhci_set_ddr_mode`, which
re-supplies the clock from `cur_clk_rate`. -/
theorem claim_C8_bypass_records_zero :
    sdhci_clk_supply ⟨⟨200000000⟩, 50000000⟩ 200000000 =
      { ret := 0, host := ⟨⟨200000000⟩, 0⟩,
        clkWrites := [SDHCI_INT_CLK_EN,
          SDHCI_INT_CLK_EN ||| SDHCI_CLK_STABLE ||| SDHCI_CLK_EN] } := by
  decide

/-- C9: an unrecognized bus-width tag fails with no write to the
host-control register; each recognized tag merges its pattern into the
register by OR, preserving every bit already set. -/
theorem claim_C9_bus_width (reg width : Nat)
    (h8 : width ≠ DATA_BUS_WIDTH_8BIT) (h4 : width ≠ DATA_BUS_WIDTH_4BIT)
    (h1 : width ≠ DATA_BUS_WIDTH_1BIT) :
    sdhci_set_bus_width reg width = (1, none) ∧
    sdhci_set_bus_width reg DATA_BUS_WIDTH_8BIT =
      (0, some (reg ||| SDHCI_BUS_WITDH_8BIT)) ∧
    sdhci_set_bus_width reg DATA_BUS_WIDTH_4BIT =
      (0, some (reg ||| SDHCI_BUS_WITDH_4BIT)) ∧
    sdhci_set_bus_width reg DATA_BUS_WIDTH_1BIT =
      (0, some (reg ||| SDHCI_BUS_WITDH_1BIT)) := by
  refine ⟨by simp [sdhci_set_bus_width, h8, h4, h1], ?_, ?_, ?_⟩ <;>
    simp [sdhci_set_bus_width, DATA_BUS_WIDTH_8BIT, DATA_BUS_WIDTH_4BIT,
      DATA_BUS_WIDTH_1BIT]

/-- C9 witness: width tag 7 is rejected with the register untouched;
the recognized tags OR their pattern into register value 5. -/
theorem claim_C9_witness :
    sdhci_set_bus_width 5 7 = (1, none) ∧
    sdhci_set_bus_width 5 DATA_BUS_WIDTH_8BIT = (0, some (5 ||| SDHCI_BUS_WITDH_8BIT)) ∧
    sdhci_set_bus_width 5 DATA_BUS_WIDTH_4BIT = (0, some (5 ||| SDHCI_BUS_WITDH_4BIT)) ∧
    sdhci_set_bus_width 5 DATA_BUS_WIDTH_1BIT = (0, some (5 ||| SDHCI_BUS_WITDH_1BIT)) :=
  claim_C9_bus_width 5 7 (by decide) (by decide) (by decide)

/-- First-fit property of the divisor scan: starting from an even
divisor whose even predecessors all fail, if some even divisor in the
remaining scan range succeeds, the scan stops at the first sufficient
even divisor and reports its frequency. -/
lemma clkDivScan_first_fit (base clk div freq : Nat) (h2 : 2 ≤ div)
    (hev : div % 2 = 0)
    (hpre : ∀ d, 2 ≤ d → d % 2 = 0 → d < div → clk < base / d)
    (hex : ∃ d, div ≤ d ∧ d % 2 = 0 ∧ d < SDHCI_CLK_MAX_DIV ∧ base / d ≤ clk) :
    2 ≤ (clkDivScan base clk div freq).1 ∧
    (clkDivScan base clk div freq).1 % 2 = 0 ∧
    (clkDivScan base clk div freq).1 < SDHCI_CLK_MAX_DIV ∧
    base / (clkDivScan base clk div freq).1 ≤ clk ∧
    (clkDivScan base clk div freq).2 = base / (clkDivScan base clk div freq).1 ∧
    ∀ d, 2 ≤ d → d % 2 = 0 → d < (clkDivScan base clk div freq).1 →
      clk < base / d := by
  obtain ⟨d, hdge, hdev, hdlt, hdle⟩ := hex
  have hlt : div < SDHCI_CLK_MAX_DIV := lt_of_le_of_lt hdge hdlt
  rw [clkDivScan, if_pos hlt]
  by_cases hb : base / div ≤ clk
  · rw [if_pos hb]
    exact ⟨h2, hev, hlt, hb, rfl, hpre⟩
  · rw [if_neg hb]
    have hne : d ≠ div := fun he => hb (he ▸ hdle)
    exact clkDivScan_first_fit base clk (div + 2) (base / div) (by omega) (by omega)
      (fun d' hd2 hdev' hdlt' => by
        rcases Nat.lt_or_ge d' div with h' | h'
        · exact hpre d' hd2 hdev' h'
        · have hde : d' = div := by omega
          subst hde
          omega)
      ⟨d, by omega, hdev, hdlt, hdle⟩
termination_by SDHCI_CLK_MAX_DIV - div
decreasing_by omega

/-- Exhaustion of the divisor scan: when every even divisor in the
remaining range fails, the scan runs to `SDHCI_CLK_MAX_DIV` and leaves
`freq` at the value computed for the last scanned divisor. -/
lemma clkDivScan_exhaust (base clk div freq : Nat) (h2 : 2 ≤ div)
    (hev : div % 2 = 0) (hlt : div < SDHCI_CLK_MAX_DIV)
    (hall : ∀ d, div ≤ d → d % 2 = 0 → d < SDHCI_CLK_MAX_DIV → clk < base / d) :
    clkDivScan base clk div freq =
      (SDHCI_CLK_MAX_DIV, base / (SDHCI_CLK_MAX_DIV - 2)) := by
  rw [clkDivScan, if_pos hlt]
  have hnb : ¬ base / div ≤ clk := by
    have := hall div le_rfl hev hlt
    omega
  rw [if_neg hnb]
  by_cases hend : div + 2 < SDHCI_CLK_MAX_DIV
  · exact clkDivScan_exhaust base clk (div + 2) (base / div) (by omega) (by omega) hend
      (fun d hd hdev hdlt => hall d (by omega) hdev hdlt)
  · have hdiv : div = SDHCI_CLK_MAX_DIV - 2 := by
      simp only [SDHCI_CLK_MAX_DIV] at *
      omega
    rw [clkDivScan, if_neg hend, hdiv]
    refine congrArg₂ Prod.mk ?_ rfl
    simp only [SDHCI_CLK_MAX_DIV]
termination_by SDHCI_CLK_MAX_DIV - div
decreasing_by omega

/-- C7: for a target strictly below the base rate for which some
scanned divisor suffices, the scan selects the first even divisor `d`
(in the ascending order 2, 4, 6, ...) with `base / d ≤ clk` — every
smaller even divisor yields a frequency above the target — and the
supply routine succeeds, recording `base / d`. -/
theorem claim_C7_first_fit (host : sdhci_host) (clk : Nat)
    (hlt : clk < host.caps.base_clk_rate)
    (hex : ∃ d, 2 ≤ d ∧ d % 2 = 0 ∧ d < SDHCI_CLK_MAX_DIV ∧
      host.caps.base_clk_rate / d ≤ clk) :
    2 ≤ (clkDivScan host.caps.base_clk_rate clk 2 0).1 ∧
    (clkDivScan host.caps.base_clk_rate clk 2 0).1 % 2 = 0 ∧
    (clkDivScan host.caps.base_clk_rate clk 2 0).1 < SDHCI_CLK_MAX_DIV ∧
    host.caps.base_clk_rate / (clkDivScan host.caps.base_clk_rate clk 2 0).1 ≤ clk ∧
    (∀ d, 2 ≤ d → d % 2 = 0 → d < (clkDivScan host.caps.base_clk_rate clk 2 0).1 →
      clk < host.caps.base_clk_rate / d) ∧
    (sdhci_clk_supply host clk).ret = 0 ∧
    (sdhci_clk_supply host clk).host.cur_clk_rate =
      host.caps.base_clk_rate / (clkDivScan host.caps.base_clk_rate clk 2 0).1 := by
  obtain ⟨d, hd⟩ := hex
  have hff := clkDivScan_first_fit host.caps.base_clk_rate clk 2 0 le_rfl rfl
    (fun d' _ _ hlt' => absurd hlt' (by omega)) ⟨d, hd.1, hd.2.1, hd.2.2⟩
  refine ⟨hff.1, hff.2.1, hff.2.2.1, hff.2.2.2.1, hff.2.2.2.2.2, ?_, ?_⟩ <;>
    simp [sdhci_clk_supply, if_neg (by omega : ¬ host.caps.base_clk_rate < clk),
      if_neg (by omega : ¬ clk = host.caps.base_clk_rate), hff.2.2.2.2.1]

/-- C7 witness: base 100, target 50 — divisor 2 is selected. -/
theorem claim_C7_witness :
    2 ≤ (clkDivScan 100 50 2 0).1 ∧
    (clkDivScan 100 50 2 0).1 % 2 = 0 ∧
    (clkDivScan 100 50 2 0).1 < SDHCI_CLK_MAX_DIV ∧
    100 / (clkDivScan 100 50 2 0).1 ≤ 50 ∧
    (∀ d, 2 ≤ d → d % 2 = 0 → d < (clkDivScan 100 50 2 0).1 → 50 < 100 / d) ∧
    (sdhci_clk_supply ⟨⟨100⟩, 7⟩ 50).ret = 0 ∧
    (sdhci_clk_supply ⟨⟨100⟩, 7⟩ 50).host.cur_clk_rate = 100 / (clkDivScan 100 50 2 0).1 :=
  claim_C7_first_fit ⟨⟨100⟩, 7⟩ 50 (by decide) ⟨2, by decide, by decide, by decide, by decide⟩

/-- C10: when no scanned even divisor can bring the frequency down to
the target, the supply routine does not fail: the scan exhausts at
`SDHCI_CLK_MAX_DIV`, the clock control register is programmed from the
final scan value (`SDHCI_CLK_MAX_DIV >>> 1` in the divider fields),
the routine returns success, and the recorded rate is
`base / (SDHCI_CLK_MAX_DIV - 2)`, strictly above the target. -/
theorem claim_C10_exhaust_success (host : sdhci_host) (clk : Nat)
    (hlt : clk < host.caps.base_clk_rate)
    (hall : ∀ d, 2 ≤ d → d % 2 = 0 → d < SDHCI_CLK_MAX_DIV →
      clk < host.caps.base_clk_rate / d) :
    (sdhci_clk_supply host clk).ret = 0 ∧
    (sdhci_clk_supply host clk).host.cur_clk_rate =
      host.caps.base_clk_rate / (SDHCI_CLK_MAX_DIV - 2) ∧
    clk < host.caps.base_clk_rate / (SDHCI_CLK_MAX_DIV - 2) ∧
    (sdhci_clk_supply host clk).clkWrites =
      [((SDHCI_CLK_MAX_DIV >>> 1 &&& SDHCI_SDCLK_FREQ_MASK) <<< SDHCI_SDCLK_FREQ_SEL |||
        ((SDHCI_CLK_MAX_DIV >>> 1 &&& SDHC_SDCLK_UP_BIT_MASK) >>> SDHCI_SDCLK_FREQ_SEL) <<<
          SDHCI_SDCLK_UP_BIT_SEL) ||| SDHCI_INT_CLK_EN,
       (((SDHCI_CLK_MAX_DIV >>> 1 &&& SDHCI_SDCLK_FREQ_MASK) <<< SDHCI_SDCLK_FREQ_SEL |||
        ((SDHCI_CLK_MAX_DIV >>> 1 &&& SDHC_SDCLK_UP_BIT_MASK) >>> SDHCI_SDCLK_FREQ_SEL) <<<
          SDHCI_SDCLK_UP_BIT_SEL) ||| SDHCI_INT_CLK_EN) ||| SDHCI_CLK_STABLE |||
          SDHCI_CLK_EN] := by
  have hsc := clkDivScan_exhaust host.caps.base_clk_rate clk 2 0 le_rfl rfl
    (by decide) hall
  refine ⟨?_, ?_, hall (SDHCI_CLK_MAX_DIV - 2) (by decide) (by decide) (by decide), ?_⟩ <;>
    simp [sdhci_clk_supply, if_neg (by omega : ¬ host.caps.base_clk_rate < clk),
      if_neg (by omega : ¬ clk = host.caps.base_clk_rate), hsc]

/-- C10 witness: base 1 MHz, target 0 — no divisor suffices; the scan
exhausts and 1000000 / 2044 = 489 is recorded, above the target. -/
theorem claim_C10_witness :
    (sdhci_clk_supply ⟨⟨1000000⟩, 77⟩ 0).ret = 0 ∧
    (sdhci_clk_supply ⟨⟨1000000⟩, 77⟩ 0).host.cur_clk_rate =
      1000000 / (SDHCI_CLK_MAX_DIV - 2) ∧
    0 < 1000000 / (SDHCI_CLK_MAX_DIV - 2) ∧
    (sdhci_clk_supply ⟨⟨1000000⟩, 77⟩ 0).clkWrites =
      [((SDHCI_CLK_MAX_DIV >>> 1 &&& SDHCI_SDCLK_FREQ_MASK) <<< SDHCI_SDCLK_FREQ_SEL |||
        ((SDHCI_CLK_MAX_DIV >>> 1 &&& SDHC_SDCLK_UP_BIT_MASK) >>> SDHCI_SDCLK_FREQ_SEL) <<<
          SDHCI_SDCLK_UP_BIT_SEL) ||| SDHCI_INT_CLK_EN,
       (((SDHCI_CLK_MAX_DIV >>> 1 &&& SDHCI_SDCLK_FREQ_MASK) <<< SDHCI_SDCLK_FREQ_SEL |||
        ((SDHCI_CLK_MAX_DIV >>> 1 &&& SDHC_SDCLK_UP_BIT_MASK) >>> SDHCI_SDCLK_FREQ_SEL) <<<
          SDHCI_SDCLK_UP_BIT_SEL) ||| SDHCI_INT_CLK_EN) ||| SDHCI_CLK_STABLE |||
          SDHCI_CLK_EN] :=
  claim_C10_exhaust_success ⟨⟨1000000⟩, 77⟩ 0 (by decide)
    (fun d h2 _ hd => Nat.div_pos
      (by show d ≤ 1000000; simp only [SDHCI_CLK_MAX_DIV] at hd; omega)
      (by omega))

/-- Modelled from the spec: the claim's reassembly formula — `R0`
low-aligned with its low byte unmodified, each subsequent word
left-shifted 8 bits and OR'd with the top 8 bits of the previous raw
register word.  Stated for comparison against `sdhci_resp_r2`. -/
def spec_resp_r2 (raw : Nat → Nat) : List Nat :=
  [raw 0 % 2 ^ 32,
   (((raw 1 % 2 ^ 32) <<< 8) % 2 ^ 32) ||| ((raw 0 % 2 ^ 32) >>> 24),
   (((raw 2 % 2 ^ 32) <<< 8) % 2 ^ 32) ||| ((raw 1 % 2 ^ 32) >>> 24),
   (((raw 3 % 2 ^ 32) <<< 8) % 2 ^ 32) ||| ((raw 2 % 2 ^ 32) >>> 24)]

/-- C6 counterexample: with all four response registers reading 1, the
code's word 0 is `1 <<< 8 = 256`, not the claim's low-aligned `1` —
the code left-shifts the first word too. -/
theorem claim_C6_counterexample :
    sdhci_resp_r2 (fun _ => 1) ≠ spec_resp_r2 (fun _ => 1) := by
  decide

/-- Arithmetic form of one reassembled response word: shift-and-OR of
truncated words equals multiply-and-add modulo 2^32. -/
lemma resp_word_arith (x y : Nat) :
    ((x % 2 ^ 32) <<< 8) % 2 ^ 32 ||| ((y % 2 ^ 32) >>> 24)
      = (x % 2 ^ 32 * 2 ^ 8 + y % 2 ^ 32 / 2 ^ 24) % 2 ^ 32 := by
  have hb32 : y % 2 ^ 32 < 2 ^ 32 := Nat.mod_lt _ (by norm_num)
  rw [Nat.shiftRight_eq_div_pow, Nat.shiftLeft_eq,
    show (2 : Nat) ^ 32 = 2 ^ 24 * 2 ^ 8 by norm_num,
    Nat.mul_mod_mul_right]
  have hdlt : y % (2 ^ 24 * 2 ^ 8) / 2 ^ 24 < 2 ^ 8 :=
    Nat.div_lt_of_lt_mul hb32
  have hor := Nat.mul_add_lt_is_or hdlt (x % (2 ^ 24 * 2 ^ 8) % 2 ^ 24)
  have hamod : x % (2 ^ 24 * 2 ^ 8) % 2 ^ 24 < 2 ^ 24 := Nat.mod_lt _ (by norm_num)
  rw [mul_comm (x % (2 ^ 24 * 2 ^ 8) % 2 ^ 24) (2 ^ 8), ← hor]
  norm_num at *
  omega

/-- C6 amended: every assembled word, the first included, is the raw
register left-shifted 8 bits truncated to 32 bits; words after the
first are OR'd with the top 8 bits of the previous raw register —
arithmetically, word 0 is `(R0 * 2^8) mod 2^32` (its low byte is
zeroed, not preserved) and word i is `(Ri * 2^8 + R(i-1) / 2^24) mod
2^32`. -/
theorem claim_C6_amended (raw : Nat → Nat) :
    sdhci_resp_r2 raw =
      [raw 0 % 2 ^ 32 * 2 ^ 8 % 2 ^ 32,
       (raw 1 % 2 ^ 32 * 2 ^ 8 + raw 0 % 2 ^ 32 / 2 ^ 24) % 2 ^ 32,
       (raw 2 % 2 ^ 32 * 2 ^ 8 + raw 1 % 2 ^ 32 / 2 ^ 24) % 2 ^ 32,
       (raw 3 % 2 ^ 32 * 2 ^ 8 + raw 2 % 2 ^ 32 / 2 ^ 24) % 2 ^ 32] := by
  simp only [sdhci_resp_r2, SDHCI_RESP_LSHIFT, SDHCI_RESP_RSHIFT,
    show List.range 4 = [0, 1, 2, 3] from rfl, List.map_cons, List.map_nil]
  norm_num
  refine ⟨?_, ?_, ?_, ?_⟩
  · rw [Nat.shiftLeft_eq]
    norm_num
  · exact resp_word_arith (raw 1) (raw 0)
  · exact resp_word_arith (raw 2) (raw 1)
  · exact resp_word_arith (raw 3) (raw 2)

/-- One-step unfolding of the polling loop at positive fuel. -/
lemma pollSts_succ (reads : Nat → Nat) (test : Nat → Bool) (k fuel : Nat) :
    pollSts reads test k (fuel + 1) =
      if test (reads k) then (true, k + 1)
      else if fuel = 0 then (false, k + 1)
      else pollSts reads test (k + 1) fuel := rfl

/-- The polling loop gives up after exactly `fuel` reads when the
tested condition never holds of the stream. -/
lemma pollSts_exhaust (reads : Nat → Nat) (test : Nat → Bool)
    (h : ∀ j, test (reads j) = false) :
    ∀ fuel k, pollSts reads test k fuel = (false, k + fuel) := by
  intro fuel
  induction fuel with
  | zero => intro k; simp [pollSts]
  | succ fuel ih =>
    intro k
    rw [pollSts_succ, h k]
    by_cases hf : fuel = 0
    · subst hf; simp
    · simp only [if_neg hf, ih, Bool.false_eq_true, if_false]
      refine congrArg₂ Prod.mk rfl ?_
      omega

/-- When the Command-Complete bit never appears, `sdhci_cmd_complete`
exhausts its poll and falls straight into the `err:` tail, with no
response decoded and no interrupt-status write. -/
lemma cmd_complete_exhaust (hw : HwState) (cmd : mmc_command)
    (h : ∀ j, hw.nrmlReads j &&& SDHCI_INT_STS_CMD_COMPLETE ≠
      SDHCI_INT_STS_CMD_COMPLETE) :
    sdhci_cmd_complete hw cmd = errBlock hw cmd [] [] SDHCI_MAX_CMD_RETRY := by
  have hp := pollSts_exhaust hw.nrmlReads
    (fun v => v &&& SDHCI_INT_STS_CMD_COMPLETE = SDHCI_INT_STS_CMD_COMPLETE)
    (fun j => by simp [h j]) SDHCI_MAX_CMD_RETRY 0
  simp only [sdhci_cmd_complete, hp]
  simp

/-- C2 (amended): when the command-complete poll exhausts its bounded
retry count, no write-back to the normal interrupt status register
occurs — the Command-Complete bit stays uncleared — but the return
value is a failure only when the error summary bit is flagged and the
classifier matches a kind (the first in precedence order, not
necessarily timeout); with a clean error status the function returns
success. -/
theorem claim_C2_timeout_path (hw : HwState) (cmd : mmc_command)
    (h : ∀ j, hw.nrmlReads j &&& SDHCI_INT_STS_CMD_COMPLETE ≠
      SDHCI_INT_STS_CMD_COMPLETE) :
    (sdhci_cmd_complete hw cmd).nrmlWrites = [] ∧
    ((sdhci_cmd_complete hw cmd).ret = 1 ↔
      hw.nrmlReads SDHCI_MAX_CMD_RETRY &&& SDHCI_ERR_INT_STAT_MASK ≠ 0 ∧
      sdhci_cmd_err_status hw.errSts ≠ none) ∧
    (sdhci_cmd_complete hw cmd).errKind =
      (if hw.nrmlReads SDHCI_MAX_CMD_RETRY &&& SDHCI_ERR_INT_STAT_MASK ≠ 0
       then sdhci_cmd_err_status hw.errSts else none) := by
  rw [cmd_complete_exhaust hw cmd h]
  unfold errBlock
  by_cases he : hw.nrmlReads SDHCI_MAX_CMD_RETRY &&& SDHCI_ERR_INT_STAT_MASK ≠ 0
  · rw [if_pos he]
    cases hk : sdhci_cmd_err_status hw.errSts with
    | some k => simp [he, hk]
    | none => simp [he, hk]
  · rw [if_neg he]
    simp [he]

/-- C2 witness: a stream that never raises Command-Complete but flags
the error summary bit, with a command-timeout error status. -/
theorem claim_C2_witness :
    (sdhci_cmd_complete ⟨fun _ => 32768, 1, fun _ => 0, fun _ => 0⟩
        ⟨17, 0, 0, SDHCI_CMD_RESP_R1, false, 0⟩).nrmlWrites = [] ∧
    ((sdhci_cmd_complete ⟨fun _ => 32768, 1, fun _ => 0, fun _ => 0⟩
        ⟨17, 0, 0, SDHCI_CMD_RESP_R1, false, 0⟩).ret = 1 ↔
      (32768 : Nat) &&& SDHCI_ERR_INT_STAT_MASK ≠ 0 ∧
      sdhci_cmd_err_status 1 ≠ none) ∧
    (sdhci_cmd_complete ⟨fun _ => 32768, 1, fun _ => 0, fun _ => 0⟩
        ⟨17, 0, 0, SDHCI_CMD_RESP_R1, false, 0⟩).errKind =
      (if (32768 : Nat) &&& SDHCI_ERR_INT_STAT_MASK ≠ 0
       then sdhci_cmd_err_status 1 else none) :=
  claim_C2_timeout_path ⟨fun _ => 32768, 1, fun _ => 0, fun _ => 0⟩
    ⟨17, 0, 0, SDHCI_CMD_RESP_R1, false, 0⟩
    (fun j => by show (32768 : Nat) &&& 1 ≠ 1; decide)

/-- C2 counterexample: the poll exhausts (the status always reads 0),
the error status register is clean — and the function returns 0,
success, not a timeout failure. -/
theorem claim_C2_counterexample :
    (sdhci_cmd_complete ⟨fun _ => 0, 0, fun _ => 0, fun _ => 0⟩
      ⟨17, 0, 0, SDHCI_CMD_RESP_R1, false, 0⟩).ret = 0 := by
  rw [cmd_complete_exhaust _ _ (fun j => by show (0 : Nat) &&& 1 ≠ 1; decide)]
  decide

/-- The `err:` tail issues the line reset exactly when it returns
success and the command bears data. -/
lemma errBlock_reset (hw : HwState) (cmd : mmc_command) (resp writes : List Nat)
    (k : Nat) :
    (errBlock hw cmd resp writes k).resetWrite =
      (decide ((errBlock hw cmd resp writes k).ret = 0) && cmd.data_present) := by
  unfold errBlock
  by_cases he : hw.nrmlReads k &&& SDHCI_ERR_INT_STAT_MASK ≠ 0
  · rw [if_pos he]
    cases sdhci_cmd_err_status hw.errSts <;> simp
  · rw [if_neg he]
    simp

/-- C3 (amended): for a data-bearing command, the command/data line
soft reset is issued exactly when `sdhci_cmd_complete` returns
success; when the error-interrupt classifier reports an error the
function returns failure before reaching the reset. -/
theorem claim_C3_reset_on_success (hw : HwState) (cmd : mmc_command)
    (hd : cmd.data_present = true) :
    (sdhci_cmd_complete hw cmd).resetWrite =
      decide ((sdhci_cmd_complete hw cmd).ret = 0) := by
  have key : ∀ resp writes k,
      (errBlock hw cmd resp writes k).resetWrite =
        decide ((errBlock hw cmd resp writes k).ret = 0) := by
    intro resp writes k
    rw [errBlock_reset, hd]
    simp
  simp only [sdhci_cmd_complete]
  repeat' split
  all_goals exact key _ _ _

/-- C3 witness: a clean, immediately-completing data command — the
reset is issued and the command succeeds. -/
theorem claim_C3_witness :
    (sdhci_cmd_complete ⟨fun _ => 3, 0, fun _ => 0, fun _ => 0⟩
        ⟨17, 0, 0, SDHCI_CMD_RESP_R1, true, 0⟩).resetWrite =
      decide ((sdhci_cmd_complete ⟨fun _ => 3, 0, fun _ => 0, fun _ => 0⟩
        ⟨17, 0, 0, SDHCI_CMD_RESP_R1, true, 0⟩).ret = 0) :=
  claim_C3_reset_on_success ⟨fun _ => 3, 0, fun _ => 0, fun _ => 0⟩
    ⟨17, 0, 0, SDHCI_CMD_RESP_R1, true, 0⟩ rfl

/-- C3 counterexample: a data-bearing command whose completion is
flagged with an error — the classifier reports command-timeout, the
function returns 1, and the soft reset of the command/data lines is
never written. -/
theorem claim_C3_counterexample :
    (sdhci_cmd_complete ⟨fun _ => 32771, 1, fun _ => 0, fun _ => 0⟩
      ⟨17, 0, 0, SDHCI_CMD_RESP_R1, true, 0⟩).ret = 1 ∧
    (sdhci_cmd_complete ⟨fun _ => 32771, 1, fun _ => 0, fun _ => 0⟩
      ⟨17, 0, 0, SDHCI_CMD_RESP_R1, true, 0⟩).resetWrite = false := by
  decide

/-- C4 (amended): for a data-bearing command that reaches dispatch
(lines idle, recognized response type) the descriptor table is always
built, but it is freed only when the command-completion sequence
succeeds; on failure `sdhci_send_command` returns 1 without freeing
it — the table leaks, as the spec's resource-leak design note records. -/
theorem claim_C4_free_on_success (hw : HwState) (cmd : mmc_command)
    (hd : cmd.data_present = true)
    (hline : hw.presentReads 0 &&& SDHCI_STATE_CMD_DAT_MASK = 0)
    (hresp : respTypeMap cmd.resp_type ≠ none) :
    (sdhci_send_command hw cmd).sgBuilt = true ∧
    (sdhci_send_command hw cmd).sgFreed =
      decide ((sdhci_send_command hw cmd).ret = 0) := by
  have hp : pollSts hw.presentReads
      (fun v => v &&& SDHCI_STATE_CMD_DAT_MASK = 0) 0 10 = (true, 1) := by
    rw [show (10 : Nat) = 9 + 1 from rfl, pollSts_succ]
    simp [hline]
  unfold sdhci_send_command
  rw [hp]
  cases hr : respTypeMap cmd.resp_type with
  | none => exact absurd hr hresp
  | some enc =>
    simp only [hr]
    by_cases hc : (sdhci_cmd_complete hw cmd).ret ≠ 0
    · simp [hc, hd]
    · simp only [not_not] at hc
      simp [hc, hd]

/-- C4 witness: a clean data command — the table is built and freed on
the success path. -/
theorem claim_C4_witness :
    (sdhci_send_command ⟨fun _ => 3, 0, fun _ => 0, fun _ => 0⟩
        ⟨17, 0, 0, SDHCI_CMD_RESP_R1, true, 0⟩).sgBuilt = true ∧
    (sdhci_send_command ⟨fun _ => 3, 0, fun _ => 0, fun _ => 0⟩
        ⟨17, 0, 0, SDHCI_CMD_RESP_R1, true, 0⟩).sgFreed =
      decide ((sdhci_send_command ⟨fun _ => 3, 0, fun _ => 0, fun _ => 0⟩
        ⟨17, 0, 0, SDHCI_CMD_RESP_R1, true, 0⟩).ret = 0) :=
  claim_C4_free_on_success ⟨fun _ => 3, 0, fun _ => 0, fun _ => 0⟩
    ⟨17, 0, 0, SDHCI_CMD_RESP_R1, true, 0⟩ rfl (by decide) (by decide)

/-- C4 counterexample: a data-bearing command whose completion fails
(error summary flagged, command-timeout status) — `sdhci_send_command`
returns 1 with the descriptor table built but never freed. -/
theorem claim_C4_counterexample :
    (sdhci_send_command ⟨fun _ => 32771, 1, fun _ => 0, fun _ => 0⟩
      ⟨17, 0, 0, SDHCI_CMD_RESP_R1, true, 0⟩).ret = 1 ∧
    (sdhci_send_command ⟨fun _ => 32771, 1, fun _ => 0, fun _ => 0⟩
      ⟨17, 0, 0, SDHCI_CMD_RESP_R1, true, 0⟩).sgBuilt = true ∧
    (sdhci_send_command ⟨fun _ => 32771, 1, fun _ => 0, fun _ => 0⟩
      ⟨17, 0, 0, SDHCI_CMD_RESP_R1, true, 0⟩).sgFreed = false := by
  decide
